import Mathlib

/-!
Verification of the bitvibe managed backend (apps/backend/src/server.mjs and
apps/backend/src/db.mjs).

The development shallowly embeds the response-normalizer text pipeline
(`sanitizeMakeCode`, `separateFeedback`, `extractCode`, `stubForTarget`),
the bearer-token extraction, the repository operations from db.mjs, and the
authorization block of the `/vibbit/generate` handler.  Strings are modelled
as Lean `String`, with the JavaScript regex operations expanded into
explicit structural functions over `List Char`.
-/

namespace Bitvibe

/-- The backtick character, U+0060. -/
def tick : Char := '`'

/-- JavaScript whitespace (the `\s` character class and the set removed by
`String.prototype.trim`): tab, LF, VT, FF, CR, space, NBSP, and the Unicode
space/line separators including the BOM. -/
def isJsWs (c : Char) : Bool :=
  let n := c.toNat
  (9 ≤ n && n ≤ 13) || n == 32 || n == 0xA0 || n == 0x1680 ||
  (0x2000 ≤ n && n ≤ 0x200A) || n == 0x2028 || n == 0x2029 ||
  n == 0x202F || n == 0x205F || n == 0x3000 || n == 0xFEFF

/-- JavaScript line terminators, the characters that `.` does not match:
LF, CR, LS, PS. -/
def isLineTerm (c : Char) : Bool :=
  c == '\n' || c == '\r' || c.toNat == 0x2028 || c.toNat == 0x2029

/-- Lower-case an ASCII letter; other characters unchanged.  Used to model
the `i` regex flag on ASCII patterns. -/
def lcAscii (c : Char) : Char :=
  if 'A' ≤ c ∧ c ≤ 'Z' then Char.ofNat (c.toNat + 32) else c

/-- `matchCI pat l` holds when `pat` is a prefix of `l` up to ASCII case. -/
def matchCI : List Char → List Char → Bool
  | [], _ => true
  | _ :: _, [] => false
  | p :: ps, c :: cs => (lcAscii p == lcAscii c) && matchCI ps cs

/-- Drop JS whitespace from both ends of a character list; models
`String.prototype.trim`. -/
def jsTrimList (l : List Char) : List Char :=
  ((l.dropWhile isJsWs).reverse.dropWhile isJsWs).reverse

/-- `String.prototype.trim` on a `String`. -/
def jsTrim (s : String) : String := ⟨jsTrimList s.data⟩

/-- One global pass of `.replace(/\\r\\n/g, "\n")`: the four-character
literal text `\r\n` becomes a real newline. -/
def passBsRN : List Char → List Char
  | '\\' :: 'r' :: '\\' :: 'n' :: rest => '\n' :: passBsRN rest
  | c :: rest => c :: passBsRN rest
  | [] => []

/-- One global pass of `.replace(/\\n/g, "\n")`. -/
def passBsN : List Char → List Char
  | '\\' :: 'n' :: rest => '\n' :: passBsN rest
  | c :: rest => c :: passBsN rest
  | [] => []

/-- One global pass of `.replace(/\\t/g, "\t")`. -/
def passBsT : List Char → List Char
  | '\\' :: 't' :: rest => '\t' :: passBsT rest
  | c :: rest => c :: passBsT rest
  | [] => []

/-- One global pass of `.replace(/\r\n/g, "\n")` on real characters. -/
def passCRLF : List Char → List Char
  | '\r' :: '\n' :: rest => '\n' :: passCRLF rest
  | c :: rest => c :: passCRLF rest
  | [] => []

/-- `.replace(/\r/g, "\n")`: a single-character class, hence a map. -/
def mapCR (l : List Char) : List Char :=
  l.map fun c => if c = '\r' then '\n' else c

/-- Curly single quotes U+2018/U+2019. -/
def isCurlySingle (c : Char) : Bool := c.toNat == 0x2018 || c.toNat == 0x2019

/-- Curly double quotes U+201C/U+201D. -/
def isCurlyDouble (c : Char) : Bool := c.toNat == 0x201C || c.toNat == 0x201D

/-- `.replace(/[‘’]/g, "'")`. -/
def mapCurlySingle (l : List Char) : List Char :=
  l.map fun c => if isCurlySingle c then '\'' else c

/-- `.replace(/[“”]/g, '"')`. -/
def mapCurlyDouble (l : List Char) : List Char :=
  l.map fun c => if isCurlyDouble c then '"' else c

/-- Zero-width characters and the BOM: U+200B..U+200D and U+FEFF. -/
def isZeroWidth (c : Char) : Bool :=
  (0x200B ≤ c.toNat && c.toNat ≤ 0x200D) || c.toNat == 0xFEFF

/-- `.replace(/[​-‍﻿]/g, "")`: a filter. -/
def filterZeroWidth (l : List Char) : List Char :=
  l.filter fun c => !(isZeroWidth c)

/-- `.replace(/ /g, " ")`. -/
def mapNbsp (l : List Char) : List Char :=
  l.map fun c => if c.toNat = 0xA0 then ' ' else c

/-- `/^```/.test(text)`: the text starts with three backticks. -/
def startsFence (l : List Char) : Bool :=
  l.take 3 == [tick, tick, tick]

/-- `.replace(/^```[\s\S]*?\n/, "")`: when the text starts with a fence,
remove everything through the first newline (lazy match); if there is no
newline after the fence the regex does not match and the text is kept. -/
def stripLeadFence (l : List Char) : List Char :=
  if startsFence l ∧ (l.drop 3).contains '\n' then
    ((l.drop 3).dropWhile (fun c => !(c == '\n'))).drop 1
  else l

/-- Does the list consist of a fence `` ``` `` followed only by JS
whitespace up to the end?  This is where `/```\s*$/` can match. -/
def fenceWsToEnd (l : List Char) : Bool :=
  l.take 3 == [tick, tick, tick] && (l.drop 3).all isJsWs

/-- `.replace(/```\s*$/, "")` (non-global): delete the suffix starting at
the leftmost position where a fence is followed only by whitespace to the
end of the string. -/
def stripTrailFence : List Char → List Char
  | [] => []
  | c :: rest => if fenceWsToEnd (c :: rest) then [] else c :: stripTrailFence rest

/-- `.replace(/^`+|`+$/g, "")`: remove the leading run and the trailing run
of backticks. -/
def stripEdgeTicks (l : List Char) : List Char :=
  ((l.dropWhile (fun c => c == tick)).reverse.dropWhile (fun c => c == tick)).reverse

/-- Core of `sanitizeMakeCode` from server.mjs over a character list,
applying its replacement passes in source order. -/
def sanitizeCore (l : List Char) : List Char :=
  if l = [] then []
  else
    let t1 := if startsFence l then stripTrailFence (stripLeadFence l) else l
    let t2 := passBsT (passBsN (passBsRN t1))
    let t3 := mapCR (passCRLF t2)
    let t4 := mapCurlyDouble (mapCurlySingle t3)
    let t5 := mapNbsp (filterZeroWidth t4)
    jsTrimList (stripEdgeTicks t5)

/-- `sanitizeMakeCode(input)` from server.mjs. -/
def sanitizeMakeCode (input : String) : String := ⟨sanitizeCore input.data⟩

/-- The body of a successful match of `/```[a-z]*\n([\s\S]*?)```/i` whose
opening fence sits at the head of `l`: skip the fence, the run of ASCII
letters (language tag) and a mandatory newline, then capture lazily up to
the first closing fence. -/
def captureUntilFence : List Char → Option (List Char)
  | '`' :: '`' :: '`' :: _ => some []
  | c :: rest => (captureUntilFence rest).map (c :: ·)
  | [] => none

/-- Try to match the fenced-block regex with the opening fence anchored at
the head of the list. -/
def fenceMatchAt (l : List Char) : Option (List Char) :=
  if l.take 3 = [tick, tick, tick] then
    let after := (l.drop 3).dropWhile Char.isAlpha
    if after.head? = some '\n' then captureUntilFence after.tail
    else none
  else none

/-- Leftmost match of `/```[a-z]*\n([\s\S]*?)```/i`, returning the capture
group. -/
def findFence : List Char → Option (List Char)
  | [] => none
  | c :: rest =>
    match fenceMatchAt (c :: rest) with
    | some r => some r
    | none => findFence rest

/-- `extractCode(raw)` from server.mjs: use the interior of the first
fenced block when one exists, otherwise the whole text, then sanitize. -/
def extractCode (raw : String) : String :=
  if raw = "" then ""
  else
    match findFence raw.data with
    | some captured => sanitizeMakeCode ⟨captured⟩
    | none => sanitizeMakeCode raw

/-- Split a character list at real newlines, JavaScript `split("\n")`
semantics (an empty input yields one empty field). -/
def splitNl : List Char → List (List Char)
  | [] => [[]]
  | '\n' :: rest => [] :: splitNl rest
  | c :: rest =>
    match splitNl rest with
    | h :: t => (c :: h) :: t
    | [] => [[c]]

/-- The pattern `FEEDBACK:` tested case-insensitively at the start of a
trimmed line. -/
def fbPat : List Char := ['f', 'e', 'e', 'd', 'b', 'a', 'c', 'k', ':']

/-- `separateFeedback(raw)` from server.mjs: normalize line endings, split
into lines, collect `FEEDBACK:`-prefixed lines (prefix stripped, trimmed)
in encounter order, and rejoin the remaining lines as the body, trimmed. -/
def separateFeedback (raw : String) : List String × String :=
  if raw = "" then ([], "")
  else
    let lines := splitNl (mapCR (passCRLF raw.data))
    let feedback := lines.filterMap fun line =>
      let trimmed := jsTrimList line
      if matchCI fbPat trimmed then
        some (String.mk (jsTrimList ((trimmed.drop 9).dropWhile isJsWs)))
      else none
    let bodyLines := lines.filter fun line => !(matchCI fbPat (jsTrimList line))
    (feedback, String.mk (jsTrimList (List.intercalate ['\n'] bodyLines)))

/-- `stubForTarget(target)` from server.mjs: the three fixed fallback
programs. -/
def stubForTarget (target : String) : String :=
  if target = "arcade" then
    "controller.A.onEvent(ControllerButtonEvent.Pressed, function () \x7b\n    game.splash(\"Start!\")\n\x7d)\ngame.onUpdate(function () \x7b\n\x7d)"
  else if target = "maker" then
    "loops.forever(function () \x7b\n\x7d)"
  else
    "basic.onStart(function () \x7b\n    basic.showString(\"Hi\")\n\x7d)"

/-- The normalization tail of `generateManaged` in server.mjs: separate
feedback, extract code, and substitute the target stub (appending a
feedback note) when extraction is empty.  A total function: the normalizer
never raises. -/
def normalizeResult (target : String) (raw : String) : String × List String :=
  let parts := separateFeedback raw
  let code := extractCode parts.2
  if code = "" then
    (stubForTarget target, parts.1 ++ ["Model returned no code; provided fallback stub."])
  else
    (code, parts.1)

/-- `hasPair a b l` detects an occurrence of the adjacent two-character
sequence `a, b` somewhere in `l`. -/
def hasPair (a b : Char) : List Char → Bool
  | [] => false
  | c :: rest => (c == a && rest.head? == some b) || hasPair a b rest

/-- `hasTriple l` detects an occurrence of three consecutive backticks. -/
def hasTriple : List Char → Bool
  | [] => false
  | c :: rest => ((c :: rest).take 3 == [tick, tick, tick]) || hasTriple rest

/-- A character for which `edgeOk` holds may legally begin or end an
already-sanitized string: it is neither a backtick nor JS whitespace. -/
def edgeOk (c : Char) : Bool := !(c == tick) && !(isJsWs c)

/-- Characters allowed anywhere in an already-sanitized string: no CR, no
curly quotes, no zero-width or BOM characters, no non-breaking space. -/
def charOk (c : Char) : Bool :=
  !(c == '\r') && !(isCurlySingle c) && !(isCurlyDouble c) &&
  !(isZeroWidth c) && !(c.toNat == 0xA0)

/-- The spec's "already sanitized" input class for `extractCode`: no
triple-backtick fence, no literal `\n` or `\t` escape pairs (a literal
`\r\n` contains a `\n` pair, so those are excluded as well), no real CR,
only straight quotes, no zero-width/BOM/NBSP characters, and the first and
last characters are neither backticks nor whitespace. -/
def sanitizedInput (s : String) : Bool :=
  let l := s.data
  !(hasTriple l) && !(hasPair '\\' 'n' l) && !(hasPair '\\' 't' l) &&
  l.all charOk && l.head?.all edgeOk && l.getLast?.all edgeOk

/-- A classroom row (db.mjs `classrooms` table).  Credential columns hold
hashes; numeric columns are modelled as integers. -/
structure Classroom where
  id : String
  name : String
  joinCode : String
  teacherToken : String
  maxStudents : Int
  requestLimit : Int
  active : Bool
  deriving Repr, DecidableEq

/-- A student row (db.mjs `students` table).  `token` holds the hash of the
student's raw credential. -/
structure Student where
  id : String
  classroomId : String
  displayName : String
  token : String
  requestsUsed : Int
  active : Bool
  deriving Repr, DecidableEq

/-- The persistent store consumed by the server. -/
structure Db where
  classrooms : List Classroom
  students : List Student
  deriving Repr, DecidableEq

/-- `getClassroom(id)` from db.mjs: `SELECT * FROM classrooms WHERE id = ?`. -/
def getClassroom (db : Db) (id : String) : Option Classroom :=
  db.classrooms.find? fun c => c.id = id

/-- `getStudentByToken(rawToken)` from db.mjs: hash the raw token, then
`SELECT * FROM students WHERE token = ?`.  The hash function (SHA-256 in
the source, via node:crypto) is an external primitive; the model abstracts
it as a parameter, as no claim depends on its concrete values. -/
def getStudentByToken (hash : String → String) (db : Db) (rawToken : String) :
    Option Student :=
  db.students.find? fun s => s.token = hash rawToken

/-- `incrementStudentUsage(studentId)` from db.mjs:
`UPDATE students SET requests_used = requests_used + 1 WHERE id = ?`. -/
def incrementStudentUsage (db : Db) (studentId : String) : Db :=
  { db with
    students := db.students.map fun s =>
      if s.id = studentId then { s with requestsUsed := s.requestsUsed + 1 } else s }

/-- `deactivateStudent(studentId, classroomId)` from db.mjs:
`UPDATE students SET active = 0 WHERE id = ? AND classroom_id = ?`, returning
`changes > 0`.  SQLite counts every row matched by the WHERE clause as
changed, including rows whose `active` column is already 0. -/
def deactivateStudent (db : Db) (studentId classroomId : String) : Bool × Db :=
  let matched := db.students.filter fun s =>
    s.id = studentId ∧ s.classroomId = classroomId
  let students := db.students.map fun s =>
    if s.id = studentId ∧ s.classroomId = classroomId then { s with active := false } else s
  (matched.length > 0, { db with students := students })

/-- `extractBearerToken(headerValue)` from server.mjs: the capture of
`/^Bearer\s+(.+)$/i`, or `""` when the regex does not match.  `\s+` is
greedy over the whitespace run after `Bearer` and backtracks so that the
capture `(.+)` is non-empty and free of line terminators (`.` does not
match those); the backtracking is modelled by `bearerBack`, trying the
longest whitespace run first. -/
def bearerBack (t : List Char) : Nat → List Char
  | 0 => []
  | j + 1 =>
    let r := t.drop (j + 1)
    if r ≠ [] ∧ r.all fun c => !(isLineTerm c) then r else bearerBack t j

/-- The part of the bearer regex after the literal `Bearer`. -/
def bearerRest (t : List Char) : String :=
  ⟨bearerBack t (t.takeWhile isJsWs).length⟩

/-- See `bearerBack`; an absent header is the empty string. -/
def extractBearerToken (headerValue : String) : String :=
  if headerValue = "" then ""
  else if matchCI "bearer".data headerValue.data then bearerRest (headerValue.data.drop 6)
  else ""

/-- Outcome of the authorization block of the `/vibbit/generate` handler. -/
inductive AuthOutcome where
  /-- Admitted because the presented credential equals the configured
  `SERVER_APP_TOKEN`. -/
  | admittedStatic
  /-- Admitted as the student with the given id; usage was incremented. -/
  | admittedStudent (studentId : String)
  /-- Admitted with no credential and no configured static token. -/
  | admittedOpen
  /-- 401 Unauthorized. -/
  | unauthorized
  /-- 403, student deactivated. -/
  | forbiddenStudent
  /-- 403, classroom missing or paused. -/
  | forbiddenClassroom
  /-- 429, quota exhausted; carries the classroom limit. -/
  | rateLimited (limit : Int)
  deriving Repr, DecidableEq

/-- Whether the outcome admits the request. -/
def AuthOutcome.isAdmitted : AuthOutcome → Bool
  | .admittedStatic => true
  | .admittedStudent _ => true
  | .admittedOpen => true
  | _ => false

/-- The authorization block of the `/vibbit/generate` handler
(server.mjs lines 552-583), applied to the already-extracted bearer token:
static-token mode first, then student-token mode (lookup, active student,
active classroom, quota, then increment), then the open/401 fallback for
requests with no credential. -/
def authorizeGenerate (hash : String → String) (serverAppToken : String)
    (db : Db) (bearerToken : String) : AuthOutcome × Db :=
  if serverAppToken ≠ "" ∧ bearerToken = serverAppToken then
    (.admittedStatic, db)
  else if bearerToken ≠ "" then
    match getStudentByToken hash db bearerToken with
    | none => (.unauthorized, db)
    | some student =>
      if student.active = false then (.forbiddenStudent, db)
      else
        match getClassroom db student.classroomId with
        | none => (.forbiddenClassroom, db)
        | some classroom =>
          if classroom.active = false then (.forbiddenClassroom, db)
          else if classroom.requestLimit ≤ student.requestsUsed then
            (.rateLimited classroom.requestLimit, db)
          else
            (.admittedStudent student.id, incrementStudentUsage db student.id)
  else if serverAppToken ≠ "" then (.unauthorized, db)
  else (.admittedOpen, db)

/-- The JSON body of a generate request as seen by `validatePayload`:
`none` models an absent field or one that is not a string. -/
structure Payload where
  target : Option String
  request : Option String
  currentCode : Option String
  deriving Repr

/-- The validated generate input. -/
structure GenInput where
  target : String
  request : String
  currentCode : String
  deriving Repr

/-- `validatePayload(payload)` from server.mjs: `request` is required and
non-empty after trimming; an unrecognized target silently maps to
`"microbit"`. -/
def validatePayload (p : Payload) : Except String GenInput :=
  let target := jsTrim (p.target.getD "")
  let request := jsTrim (p.request.getD "")
  let currentCode := p.currentCode.getD ""
  if request = "" then .error "'request' is required"
  else
    .ok
      { target := if target = "microbit" ∨ target = "arcade" ∨ target = "maker" then target else "microbit"
        request := request
        currentCode := currentCode }

/-- A response from the `/vibbit/generate` route: a success body or an
error with its HTTP status. -/
inductive GenResponse where
  | ok (code : String) (feedback : List String)
  | err (status : Nat) (message : String)
  deriving Repr

/-- The `/vibbit/generate` handler (server.mjs lines 550-602), with its
suspension points made explicit: `body` is the result of reading the JSON
body (an `Except` for a read failure) and `providerRaw` the result of the
provider call under `withTimeout` (an `Except` for a provider error,
missing key, or timeout).  The authorization block runs first; its
increment, when it happens, is in the returned database no matter how the
later stages end. -/
def handleGenerate (hash : String → String) (serverAppToken : String) (db : Db)
    (authHeader : String) (body : Except String Payload)
    (providerRaw : Except String String) : GenResponse × Db :=
  match authorizeGenerate hash serverAppToken db (extractBearerToken authHeader) with
  | (.unauthorized, db1) => (.err 401 "Unauthorized", db1)
  | (.forbiddenStudent, db1) =>
    (.err 403 "Your access has been deactivated by the teacher", db1)
  | (.forbiddenClassroom, db1) => (.err 403 "Classroom is currently paused", db1)
  | (.rateLimited limit, db1) =>
    (.err 429 ("Request limit reached (" ++ toString limit ++ "). Ask your teacher for more."), db1)
  | (_, db1) =>
    match body with
    | .error e => (.err 500 e, db1)
    | .ok payload =>
      match validatePayload payload with
      | .error m => (.err 400 m, db1)
      | .ok v =>
        match providerRaw with
        | .error pe => (.err 500 pe, db1)
        | .ok raw =>
          let r := normalizeResult v.target raw
          (.ok r.1 r.2, db1)

/-- A concrete stand-in hash for witnesses and counterexamples (the claims
hold for every hash function; witnesses need a computable one). -/
def demoHash (s : String) : String := "#" ++ s

/-- A concrete active classroom with a per-student limit of 2. -/
def demoClassroom : Classroom :=
  { id := "c1", name := "Class", joinCode := "JCODE1", teacherToken := "#tt",
    maxStudents := 40, requestLimit := 2, active := true }

/-- The same classroom, paused. -/
def demoClassroomPaused : Classroom := { demoClassroom with active := false }

/-- An active student one request below the limit of `demoClassroom`. -/
def demoStudentBoundary : Student :=
  { id := "s1", classroomId := "c1", displayName := "Ada", token := "#stok",
    requestsUsed := 1, active := true }

/-- The same student at the limit. -/
def demoStudentAtLimit : Student := { demoStudentBoundary with requestsUsed := 2 }

/-- The same student, deactivated (with quota remaining). -/
def demoStudentInactive : Student :=
  { demoStudentBoundary with requestsUsed := 0, active := false }

/-- A student whose stored token is the hash of the string "sek". -/
def demoStudentOverlap : Student := { demoStudentBoundary with token := "#sek" }

/-- Store with the boundary student. -/
def demoDbBoundary : Db :=
  { classrooms := [demoClassroom], students := [demoStudentBoundary] }

/-- Store with the student at the limit. -/
def demoDbAtLimit : Db :=
  { classrooms := [demoClassroom], students := [demoStudentAtLimit] }

/-- Store with the deactivated student. -/
def demoDbInactive : Db :=
  { classrooms := [demoClassroom], students := [demoStudentInactive] }

/-- Store whose classroom is paused but whose student is active with quota. -/
def demoDbPaused : Db :=
  { classrooms := [demoClassroomPaused], students := [demoStudentBoundary] }

/-- Store containing a student whose raw token collides with the static
secret "sek". -/
def demoDbOverlap : Db :=
  { classrooms := [demoClassroom], students := [demoStudentOverlap] }

/-- The concrete provider text of the spec's worked example. -/
def exampleRaw : String := "FEEDBACK: note\n```\ncode_line\n```"

theorem hasPair_cons_false {a b c : Char} {rest : List Char}
    (h : hasPair a b (c :: rest) = false) : hasPair a b rest = false := by
  simp only [hasPair, Bool.or_eq_false_iff] at h
  exact h.2

theorem hasTriple_cons_false {c : Char} {rest : List Char}
    (h : hasTriple (c :: rest) = false) :
    ((c :: rest).take 3 == [tick, tick, tick]) = false ∧ hasTriple rest = false := by
  simp only [hasTriple, Bool.or_eq_false_iff] at h
  exact h

theorem passBsRN_id (l : List Char) (h : hasPair '\\' 'n' l = false) : passBsRN l = l := by
  induction l using passBsRN.induct with
  | case1 rest ih => simp [hasPair] at h
  | case2 c rest h2 ih =>
    rw [passBsRN, ih (hasPair_cons_false h)]
    exact h2
  | case3 => rfl

theorem passBsN_id (l : List Char) (h : hasPair '\\' 'n' l = false) : passBsN l = l := by
  induction l using passBsN.induct with
  | case1 rest ih => simp [hasPair] at h
  | case2 c rest h2 ih =>
    rw [passBsN, ih (hasPair_cons_false h)]
    exact h2
  | case3 => rfl

theorem passBsT_id (l : List Char) (h : hasPair '\\' 't' l = false) : passBsT l = l := by
  induction l using passBsT.induct with
  | case1 rest ih => simp [hasPair] at h
  | case2 c rest h2 ih =>
    rw [passBsT, ih (hasPair_cons_false h)]
    exact h2
  | case3 => rfl

theorem passCRLF_id (l : List Char) (h : '\r' ∉ l) : passCRLF l = l := by
  induction l using passCRLF.induct with
  | case1 rest ih => simp at h
  | case2 c rest h2 ih =>
    rw [passCRLF, ih (by simp only [List.mem_cons, not_or] at h; exact h.2)]
    exact h2
  | case3 => rfl

theorem mapIdOf {f : Char → Char} {l : List Char} (h : ∀ c ∈ l, f c = c) :
    l.map f = l := by
  induction l with
  | nil => rfl
  | cons c rest ih =>
    simp only [List.map_cons]
    rw [h c (List.mem_cons_self c rest), ih fun d hd => h d (List.mem_cons_of_mem c hd)]

theorem dropWhile_id_of_head {p : Char → Bool} {l : List Char}
    (h : ∀ c, l.head? = some c → p c = false) : l.dropWhile p = l := by
  cases l with
  | nil => rfl
  | cons c rest => simp [List.dropWhile, h c rfl]

theorem edgeDrop_id {p : Char → Bool} {l : List Char}
    (h1 : ∀ c, l.head? = some c → p c = false)
    (h2 : ∀ c, l.getLast? = some c → p c = false) :
    ((l.dropWhile p).reverse.dropWhile p).reverse = l := by
  rw [dropWhile_id_of_head h1,
      dropWhile_id_of_head fun c hc => h2 c (by rwa [List.head?_reverse] at hc),
      List.reverse_reverse]

theorem startsFence_false {l : List Char} (h : hasTriple l = false) :
    startsFence l = false := by
  cases l with
  | nil => rfl
  | cons c rest => exact (hasTriple_cons_false h).1

theorem fenceMatchAt_none {l : List Char}
    (h : (l.take 3 == [tick, tick, tick]) = false) : fenceMatchAt l = none := by
  rw [fenceMatchAt, if_neg]
  simpa using h

theorem findFence_none {l : List Char} (h : hasTriple l = false) :
    findFence l = none := by
  induction l with
  | nil => rfl
  | cons c rest ih =>
    obtain ⟨h1, h2⟩ := hasTriple_cons_false h
    rw [findFence, fenceMatchAt_none h1, ih h2]

theorem sanitizeCore_id {l : List Char}
    (hT : hasTriple l = false)
    (hN : hasPair '\\' 'n' l = false)
    (hTt : hasPair '\\' 't' l = false)
    (hall : ∀ c ∈ l, charOk c = true)
    (hhead : ∀ c, l.head? = some c → edgeOk c = true)
    (hlast : ∀ c, l.getLast? = some c → edgeOk c = true) :
    sanitizeCore l = l := by
  have hcr : '\r' ∉ l := by
    intro hm
    have := hall _ hm
    simp [charOk] at this
  have hC : ∀ c ∈ l,
      (c == '\r') = false ∧ isCurlySingle c = false ∧ isCurlyDouble c = false ∧
      isZeroWidth c = false ∧ (c.toNat == 0xA0) = false := by
    intro c hm
    have := hall c hm
    simp only [charOk, Bool.and_eq_true, Bool.not_eq_true'] at this
    exact ⟨this.1.1.1.1, this.1.1.1.2, this.1.1.2, this.1.2, this.2⟩
  have hE : ∀ c, (l.head? = some c → ((c == tick) = false ∧ isJsWs c = false)) := by
    intro c hc
    have := hhead c hc
    simp only [edgeOk, Bool.and_eq_true, Bool.not_eq_true'] at this
    exact this
  have hL : ∀ c, (l.getLast? = some c → ((c == tick) = false ∧ isJsWs c = false)) := by
    intro c hc
    have := hlast c hc
    simp only [edgeOk, Bool.and_eq_true, Bool.not_eq_true'] at this
    exact this
  by_cases he : l = []
  · subst he; rfl
  · rw [sanitizeCore, if_neg he]
    simp only [startsFence_false hT, Bool.false_eq_true, if_false,
      passBsRN_id l hN, passBsN_id l hN, passBsT_id l hTt, passCRLF_id l hcr]
    rw [show mapCR l = l from mapIdOf fun c hm => by
      simp [beq_eq_false_iff_ne.mp (hC c hm).1]]
    rw [show mapCurlySingle l = l from mapIdOf fun c hm => by
      simp [mapCurlySingle, (hC c hm).2.1]]
    rw [show mapCurlyDouble l = l from mapIdOf fun c hm => by
      simp [mapCurlyDouble, (hC c hm).2.2.1]]
    rw [show filterZeroWidth l = l from List.filter_eq_self.mpr fun c hm => by
      simp [(hC c hm).2.2.2.1]]
    rw [show mapNbsp l = l from mapIdOf fun c hm => by
      have := (hC c hm).2.2.2.2
      simp only [beq_eq_false_iff_ne, ne_eq] at this
      simp [this]]
    rw [show stripEdgeTicks l = l from
      edgeDrop_id (fun c hc => (hE c hc).1) (fun c hc => (hL c hc).1)]
    exact edgeDrop_id (fun c hc => (hE c hc).2) (fun c hc => (hL c hc).2)

theorem find?_map_pres {α : Type} {f : α → α} {p : α → Bool}
    (hf : ∀ a, p (f a) = p a) (l : List α) :
    (l.map f).find? p = (l.find? p).map f := by
  induction l with
  | nil => rfl
  | cons a rest ih =>
    simp only [List.map_cons, List.find?]
    rw [hf a]
    cases hp : p a <;> simp [ih]

theorem getStudentByToken_increment (hash : String → String) (db : Db) (sid : String)
    (bearer : String) :
    getStudentByToken hash (incrementStudentUsage db sid) bearer =
      (getStudentByToken hash db bearer).map fun s =>
        if s.id = sid then { s with requestsUsed := s.requestsUsed + 1 } else s := by
  unfold getStudentByToken incrementStudentUsage
  exact find?_map_pres (fun a => by by_cases h : a.id = sid <;> simp [h]) db.students

/-- C1: a request in student-token mode (non-empty credential that is not
the configured static secret, as required for the engine to resolve it to a
student) resolving to an active student in an active classroom is rejected
with `RateLimited` — store untouched — when `requestsUsed` has reached
`requestLimit`, and when `requestsUsed = requestLimit - 1` it is admitted
with the counter incremented to exactly `requestLimit`. -/
theorem generate_rate_limit_boundary (hash : String → String) (tok : String) (db : Db)
    (bearer : String) (s : Student) (c : Classroom)
    (hmode : ¬(tok ≠ "" ∧ bearer = tok)) (hb : bearer ≠ "")
    (hs : getStudentByToken hash db bearer = some s) (hact : s.active = true)
    (hc : getClassroom db s.classroomId = some c) (hcact : c.active = true) :
    (c.requestLimit ≤ s.requestsUsed →
      authorizeGenerate hash tok db bearer = (.rateLimited c.requestLimit, db)) ∧
    (s.requestsUsed = c.requestLimit - 1 →
      authorizeGenerate hash tok db bearer =
        (.admittedStudent s.id, incrementStudentUsage db s.id) ∧
      getStudentByToken hash (authorizeGenerate hash tok db bearer).2 bearer =
        some { s with requestsUsed := c.requestLimit }) := by
  have hbase :
      authorizeGenerate hash tok db bearer =
        (if c.requestLimit ≤ s.requestsUsed then (.rateLimited c.requestLimit, db)
         else (.admittedStudent s.id, incrementStudentUsage db s.id)) := by
    rw [authorizeGenerate, if_neg hmode, if_pos hb, hs]
    simp [hact, hc, hcact]
  constructor
  · intro hlim
    rw [hbase, if_pos hlim]
  · intro heq
    have hlt : ¬c.requestLimit ≤ s.requestsUsed := by omega
    rw [hbase, if_neg hlt]
    refine ⟨rfl, ?_⟩
    simp only [getStudentByToken_increment, hs, Option.map_some', if_pos rfl]
    have hone : s.requestsUsed + 1 = c.requestLimit := by omega
    rw [hone]
    simp

/-- Witness for C1: in `demoDbBoundary` (usage 1, limit 2) the request is
admitted and the counter lands exactly on the limit; in `demoDbAtLimit`
(usage 2, limit 2) it is rate limited with the store untouched. -/
theorem generate_rate_limit_boundary_witness :
    (authorizeGenerate demoHash "" demoDbBoundary "stok" =
        (.admittedStudent "s1", incrementStudentUsage demoDbBoundary "s1") ∧
      getStudentByToken demoHash (authorizeGenerate demoHash "" demoDbBoundary "stok").2 "stok" =
        some { demoStudentBoundary with requestsUsed := 2 }) ∧
    authorizeGenerate demoHash "" demoDbAtLimit "stok" = (.rateLimited 2, demoDbAtLimit) := by
  constructor
  · have h := (generate_rate_limit_boundary demoHash "" demoDbBoundary "stok"
      demoStudentBoundary demoClassroom (by decide) (by decide) (by decide) (by decide)
      (by decide) (by decide)).2 (by decide)
    exact ⟨h.1, h.2⟩
  · exact (generate_rate_limit_boundary demoHash "" demoDbAtLimit "stok"
      demoStudentAtLimit demoClassroom (by decide) (by decide) (by decide) (by decide)
      (by decide) (by decide)).1 (by decide)

/-- C2: the store returned by the whole `/vibbit/generate` handler is
exactly the store produced by the authorization block — body-read failures,
validation failures and provider failures all happen after it and never
roll it back — and that store differs from the input only by the usage
increment, present precisely when the outcome is a student admission. -/
theorem usage_increment_iff_admission (hash : String → String) (tok : String) (db : Db)
    (header : String) (body : Except String Payload)
    (providerRaw : Except String String) :
    (handleGenerate hash tok db header body providerRaw).2 =
      (authorizeGenerate hash tok db (extractBearerToken header)).2 ∧
    (authorizeGenerate hash tok db (extractBearerToken header)).2 =
      (match (authorizeGenerate hash tok db (extractBearerToken header)).1 with
       | .admittedStudent sid => incrementStudentUsage db sid
       | _ => db) := by
  constructor
  · rw [handleGenerate]
    repeat' split
    all_goals simp_all
  · rw [authorizeGenerate]
    repeat' split
    all_goals simp_all

/-- C3: with no credential the request is admitted in open mode exactly
when no static secret is configured (otherwise 401); a non-empty credential
never yields the open-mode outcome; and a non-empty credential matching
neither the static secret nor any student is rejected `Unauthorized`. -/
theorem open_mode_characterization (hash : String → String) (tok : String) (db : Db) :
    authorizeGenerate hash tok db "" =
      ((if tok = "" then .admittedOpen else .unauthorized), db) ∧
    (∀ bearer : String, bearer ≠ "" →
      (authorizeGenerate hash tok db bearer).1 ≠ .admittedOpen) ∧
    (∀ bearer : String, bearer ≠ "" → ¬(tok ≠ "" ∧ bearer = tok) →
      getStudentByToken hash db bearer = none →
      authorizeGenerate hash tok db bearer = (.unauthorized, db)) := by
  refine ⟨?_, ?_, ?_⟩
  · by_cases ht : tok = "" <;> simp [authorizeGenerate, ht, Ne.symm]
  · intro bearer hb
    by_cases hstat : tok ≠ "" ∧ bearer = tok
    · simp [authorizeGenerate, hstat]
    · rw [authorizeGenerate, if_neg hstat, if_pos hb]
      repeat' split
      all_goals simp
  · intro bearer hb hstatic hnone
    simp [authorizeGenerate, hstatic, hb, hnone]

/-- Witness for C3: with no secret the bare request is admitted open; with
secret "sek" it is 401; a non-empty wrong credential is never open-mode
and is rejected `Unauthorized`. -/
theorem open_mode_characterization_witness :
    authorizeGenerate demoHash "" demoDbBoundary "" = (.admittedOpen, demoDbBoundary) ∧
    authorizeGenerate demoHash "sek" demoDbBoundary "" = (.unauthorized, demoDbBoundary) ∧
    (authorizeGenerate demoHash "" demoDbBoundary "zzz").1 ≠ .admittedOpen ∧
    authorizeGenerate demoHash "" demoDbBoundary "zzz" = (.unauthorized, demoDbBoundary) := by
  refine ⟨?_, ?_, ?_, ?_⟩
  · have h := (open_mode_characterization demoHash "" demoDbBoundary).1
    rwa [if_pos rfl] at h
  · have h := (open_mode_characterization demoHash "sek" demoDbBoundary).1
    rwa [if_neg (by decide : ¬("sek" : String) = "")] at h
  · exact (open_mode_characterization demoHash "" demoDbBoundary).2.1 "zzz" (by decide)
  · exact (open_mode_characterization demoHash "" demoDbBoundary).2.2 "zzz"
      (by decide) (by decide) (by decide)

/-- C4: when a static secret is configured and the credential equals it,
the request is admitted immediately and the store is returned unchanged —
no lookup, no counter change — for every store, including stores where the
same string is also a student token. -/
theorem static_token_always_admits (hash : String → String) (tok : String) (db : Db)
    (bearer : String) (htok : tok ≠ "") (heq : bearer = tok) :
    authorizeGenerate hash tok db bearer = (.admittedStatic, db) := by
  simp [authorizeGenerate, htok, heq]

/-- Witness for C4: the static secret "sek" admits even though the same
string is a stored student token, and the store (hence every counter) is
unchanged. -/
theorem static_token_always_admits_witness :
    getStudentByToken demoHash demoDbOverlap "sek" = some demoStudentOverlap ∧
    authorizeGenerate demoHash "sek" demoDbOverlap "sek" =
      (.admittedStatic, demoDbOverlap) :=
  ⟨by decide,
    static_token_always_admits demoHash "sek" demoDbOverlap "sek" (by decide) rfl⟩

/-- C5: in student-token mode (non-empty credential, not the static
secret), once the credential resolves to a student, an inactive student, a
missing classroom, or an inactive classroom each yield a 403 Forbidden
rejection with the store unchanged — with no hypothesis on the quota, so
these checks fire before the rate-limit check and no increment happens. -/
theorem student_checks_precede_rate_limit (hash : String → String) (tok : String)
    (db : Db) (bearer : String) (s : Student)
    (hmode : ¬(tok ≠ "" ∧ bearer = tok)) (hb : bearer ≠ "")
    (hs : getStudentByToken hash db bearer = some s) :
    (s.active = false →
      authorizeGenerate hash tok db bearer = (.forbiddenStudent, db)) ∧
    (s.active = true → getClassroom db s.classroomId = none →
      authorizeGenerate hash tok db bearer = (.forbiddenClassroom, db)) ∧
    (∀ c : Classroom, s.active = true → getClassroom db s.classroomId = some c →
      c.active = false →
      authorizeGenerate hash tok db bearer = (.forbiddenClassroom, db)) := by
  have h0 : authorizeGenerate hash tok db bearer =
      (if s.active = false then (.forbiddenStudent, db)
       else
         match getClassroom db s.classroomId with
         | none => (.forbiddenClassroom, db)
         | some classroom =>
           if classroom.active = false then (.forbiddenClassroom, db)
           else if classroom.requestLimit ≤ s.requestsUsed then
             (.rateLimited classroom.requestLimit, db)
           else (.admittedStudent s.id, incrementStudentUsage db s.id)) := by
    rw [authorizeGenerate, if_neg hmode, if_pos hb, hs]
  refine ⟨?_, ?_, ?_⟩
  · intro hin
    rw [h0, if_pos hin]
  · intro hac hnone
    rw [h0, if_neg (by simp [hac]), hnone]
  · intro c hac hsome hcin
    rw [h0, if_neg (by simp [hac]), hsome]
    exact if_pos hcin

/-- Witness for C5: a deactivated student with quota remaining is 403, and
an active student in a paused classroom is 403, both with the store
untouched. -/
theorem student_checks_precede_rate_limit_witness :
    authorizeGenerate demoHash "" demoDbInactive "stok" =
      (.forbiddenStudent, demoDbInactive) ∧
    authorizeGenerate demoHash "" demoDbPaused "stok" =
      (.forbiddenClassroom, demoDbPaused) := by
  constructor
  · exact (student_checks_precede_rate_limit demoHash "" demoDbInactive "stok"
      demoStudentInactive (by decide) (by decide) (by decide)).1 (by decide)
  · exact (student_checks_precede_rate_limit demoHash "" demoDbPaused "stok"
      demoStudentBoundary (by decide) (by decide) (by decide)).2.2 demoClassroomPaused
      (by decide) (by decide) (by decide)

/-- C6 counterexample: in `demoDbInactive` no active row matches student
"s1" in classroom "c1" (the sole matching row is already inactive), yet
`deactivateStudent` reports `true` — the UPDATE's WHERE clause has no
`active` filter and SQLite counts every matched row — refuting the claim
that it returns `false` whenever no matching active row exists. -/
theorem deactivateStudent_inactive_row_cex :
    (∀ s ∈ demoDbInactive.students,
      ¬(s.id = "s1" ∧ s.classroomId = "c1" ∧ s.active = true)) ∧
    (deactivateStudent demoDbInactive "s1" "c1").1 = true :=
  ⟨by decide, by decide⟩

/-- C6 amended: `deactivateStudent` returns `true` exactly when some row —
active or not — matches the student id and classroom id, and sets every
matching row inactive. -/
theorem deactivateStudent_changes_iff_row (db : Db) (studentId classroomId : String) :
    ((deactivateStudent db studentId classroomId).1 = true ↔
      ∃ s ∈ db.students, s.id = studentId ∧ s.classroomId = classroomId) ∧
    (deactivateStudent db studentId classroomId).2.students =
      db.students.map fun s =>
        if s.id = studentId ∧ s.classroomId = classroomId then { s with active := false }
        else s := by
  refine ⟨?_, rfl⟩
  simp [deactivateStudent, List.length_pos, List.filter_eq_nil_iff]

/-- Witness for C6's amended statement at a concrete store. -/
theorem deactivateStudent_changes_iff_row_witness :
    (deactivateStudent demoDbBoundary "s1" "c1").1 = true :=
  (deactivateStudent_changes_iff_row demoDbBoundary "s1" "c1").1.mpr
    ⟨demoStudentBoundary, by decide, by decide, by decide⟩

/-- C7: when extraction over the feedback-separated body yields the empty
string, the pipeline returns the fixed stub for the target with a
substitution note appended after the already-captured feedback; the code
field of the result is never empty (the stub of every target is one of the
three fixed non-empty programs).  `normalizeResult` is a total Lean
function, so the normalizer never raises. -/
theorem fallback_stub_guarantee (target raw : String)
    (h : extractCode (separateFeedback raw).2 = "") :
    normalizeResult target raw =
      (stubForTarget target,
        (separateFeedback raw).1 ++ ["Model returned no code; provided fallback stub."]) ∧
    (∀ t r : String, (normalizeResult t r).1 ≠ "") ∧
    (∀ t : String, stubForTarget t = stubForTarget "arcade" ∨
      stubForTarget t = stubForTarget "maker" ∨
      stubForTarget t = stubForTarget "microbit") := by
  refine ⟨?_, ?_, ?_⟩
  · rw [normalizeResult, h, if_pos rfl]
  · intro t r
    rw [normalizeResult]
    split
    · show stubForTarget t ≠ ""
      rw [stubForTarget]
      split
      · decide
      · split <;> decide
    · assumption
  · intro t
    rw [stubForTarget]
    split
    · left; rfl
    · split
      · right; left; rfl
      · right; right; rfl

/-- Witness for C7: a provider text with one feedback line and no code
yields the arcade stub with the note appended after the captured line. -/
theorem fallback_stub_guarantee_witness :
    extractCode (separateFeedback "FEEDBACK: hi").2 = "" ∧
    normalizeResult "arcade" "FEEDBACK: hi" =
      (stubForTarget "arcade",
        ["hi", "Model returned no code; provided fallback stub."]) := by
  refine ⟨by decide, ?_⟩
  have h := (fallback_stub_guarantee "arcade" "FEEDBACK: hi" (by decide)).1
  rw [h]
  decide

/-- C8: on the worked example `"FEEDBACK: note\n```\ncode_line\n```"` the
normalizer produces feedback `["note"]` and code `"code_line"` (for every
target, since the fallback is not taken). -/
theorem normalizer_feedback_example (target : String) :
    (separateFeedback exampleRaw).1 = ["note"] ∧
    extractCode (separateFeedback exampleRaw).2 = "code_line" ∧
    normalizeResult target exampleRaw = ("code_line", ["note"]) := by
  refine ⟨by decide, by decide, ?_⟩
  rw [normalizeResult]
  rw [show extractCode (separateFeedback exampleRaw).2 = "code_line" from by decide]
  rw [if_neg (by decide : ¬("code_line" : String) = "")]
  rw [show (separateFeedback exampleRaw).1 = ["note"] from by decide]

/-- C9: `extractCode` is the identity on every already-sanitized string —
no triple-backtick fence, no literal escape pairs for CRLF/LF/tab, only
straight quotes and real LF endings, no zero-width/BOM/NBSP characters, and
no leading or trailing backtick or whitespace. -/
theorem extractCode_idem_on_sanitized (s : String) (h : sanitizedInput s = true) :
    extractCode s = s := by
  simp only [sanitizedInput, Bool.and_eq_true, Bool.not_eq_true'] at h
  obtain ⟨⟨⟨⟨⟨hT, hN⟩, hTt⟩, hall⟩, hh⟩, hl⟩ := h
  by_cases hs : s = ""
  · subst hs; rfl
  · rw [extractCode, if_neg hs, findFence_none hT]
    show sanitizeMakeCode s = s
    rw [sanitizeMakeCode,
      sanitizeCore_id hT hN hTt
        (fun c hc => by
          have := List.all_eq_true.mp hall c hc
          exact this)
        (fun c hc => by rw [hc] at hh; simpa [Option.all] using hh)
        (fun c hc => by rw [hc] at hl; simpa [Option.all] using hl)]

/-- Witness for C9 at a concrete sanitized program. -/
theorem extractCode_idem_on_sanitized_witness :
    sanitizedInput "basic.showString(\"Hi\")" = true ∧
    extractCode "basic.showString(\"Hi\")" = "basic.showString(\"Hi\")" :=
  ⟨by decide, extractCode_idem_on_sanitized "basic.showString(\"Hi\")" (by decide)⟩

/-- C10: an Authorization header on which the bearer regex does not match
(equivalently, from which `extractBearerToken` extracts the empty string,
since a successful match always captures at least one character) is handled
exactly like an absent credential: open-mode admission when no static
secret is configured — an empty `SERVER_APP_TOKEN` counting as not
configured — and 401 otherwise, the store untouched and no student lookup
performed. -/
theorem non_bearer_header_is_open_mode (hash : String → String) (tok : String)
    (db : Db) (header : String) (h : extractBearerToken header = "") :
    authorizeGenerate hash tok db (extractBearerToken header) =
      ((if tok = "" then .admittedOpen else .unauthorized), db) := by
  rw [h]
  by_cases ht : tok = "" <;> simp [authorizeGenerate, ht, Ne.symm]

/-- Witness for C10: the non-bearer header "Token abc" yields no credential;
with secret "sek" the request is 401, with no secret it is admitted open. -/
theorem non_bearer_header_is_open_mode_witness :
    extractBearerToken "Token abc" = "" ∧
    authorizeGenerate demoHash "sek" demoDbBoundary (extractBearerToken "Token abc") =
      (.unauthorized, demoDbBoundary) ∧
    authorizeGenerate demoHash "" demoDbBoundary (extractBearerToken "Token abc") =
      (.admittedOpen, demoDbBoundary) := by
  refine ⟨by decide, ?_, ?_⟩
  · have h := non_bearer_header_is_open_mode demoHash "sek" demoDbBoundary "Token abc"
      (by decide)
    rwa [if_neg (by decide : ¬("sek" : String) = "")] at h
  · have h := non_bearer_header_is_open_mode demoHash "" demoDbBoundary "Token abc"
      (by decide)
    rwa [if_pos rfl] at h

end Bitvibe
